import Mathlib

/-!
Verification of the multicast downlink scheduling core of the loraserver
repository, as a shallow embedding in Lean 4.

The embedding covers:
* `Storage` — `internal/storage/multicast_group.go`: the multicast-group and
  multicast-queue store, over an explicit database state.  The `multicast_queue`
  table follows the migration in the repository
  (`primary key (multicast_group_id, f_cnt)`, no gateway column), which is the
  schema that matches the storage structs.
* `Multicast` — `internal/downlink/multicast/multicast.go`: the dispatcher's
  per-group step `HandleScheduleNextQueueItem` and its task pipeline, with the
  database, band and gateway backend modelled as explicit state / parameters.
  (The dispatcher operates on the later queue schema where rows carry an `id`
  and a `gateway_id`; its queue-item type is embedded separately.)
* `ClassB` — the ping-slot oracle `GetNextPingSlotAfter`, whose implementation
  is not part of the provided sources; it is modelled from the specification.
-/

namespace Storage

/-- Multicast-group type (`MulticastGroupType` in Go): Class-B or Class-C. -/
inductive MulticastGroupType where
  | B
  | C
deriving DecidableEq, Repr

/-- `MulticastGroup` struct from `internal/storage/multicast_group.go`.
Identifiers, addresses and keys are modelled as natural numbers; timestamps as
integers (nanoseconds). -/
structure MulticastGroup where
  id : Nat
  createdAt : Int := 0
  updatedAt : Int := 0
  mcAddr : Nat := 0
  mcNetSKey : Nat := 0
  fCnt : Nat := 0
  groupType : MulticastGroupType
  dr : Int := 0
  frequency : Int := 0
  pingSlotPeriod : Int := 0
deriving DecidableEq, Repr

/-- `MulticastQueueItem` struct from `internal/storage/multicast_group.go`:
`MulticastGroupID`, `FCnt`, `CreatedAt`, `FPort`, `FRMPayload`,
`EmitAtTimeSinceGPSEpoch` (nullable duration since GPS epoch). -/
structure MulticastQueueItem where
  multicastGroupID : Nat
  fCnt : Nat
  createdAt : Int := 0
  fPort : Nat
  frmPayload : List Nat := []
  emitAtTimeSinceGPSEpoch : Option Int := none
deriving DecidableEq, Repr

/-- Storage errors surfaced by the store (`ErrDoesNotExist`,
`ErrAlreadyExists` via `handlePSQLError` on a unique violation,
`ErrInvalidFPort` from `Validate`). -/
inductive StorageError where
  | doesNotExist
  | alreadyExists
  | invalidFPort
deriving DecidableEq, Repr

/-- Database state: the `multicast_group` and `multicast_queue` tables. -/
structure DBState where
  groups : List MulticastGroup := []
  queue : List MulticastQueueItem := []
deriving DecidableEq, Repr

/-- `MulticastQueueItem.Validate`: rejects a zero FPort. -/
def MulticastQueueItem.validate (m : MulticastQueueItem) : Except StorageError Unit :=
  if m.fPort = 0 then .error .invalidFPort else .ok ()

/-- Row predicate for the `multicast_queue` primary key
`(multicast_group_id, f_cnt)`. -/
def sameKey (gid fCnt : Nat) (r : MulticastQueueItem) : Bool :=
  r.multicastGroupID == gid && r.fCnt == fCnt

/-- `CreateMulticastQueueItem` from `internal/storage/multicast_group.go`:
validates the item, stamps `CreatedAt = now`, and inserts one row into
`multicast_queue`.  A duplicate `(multicast_group_id, f_cnt)` violates the
table's primary key and surfaces as `ErrAlreadyExists`.  The function does not
read or write the `multicast_group` table. -/
def CreateMulticastQueueItem (now : Int) (db : DBState) (qi : MulticastQueueItem) :
    Except StorageError DBState :=
  match qi.validate with
  | .error e => .error e
  | .ok _ =>
    let qi := { qi with createdAt := now }
    if db.queue.any (sameKey qi.multicastGroupID qi.fCnt) then
      .error .alreadyExists
    else
      .ok { db with queue := db.queue ++ [qi] }

/-- `DeleteMulticastQueueItem` from `internal/storage/multicast_group.go`:
`delete from multicast_queue where multicast_group_id = $1 and f_cnt = $2`;
returns `ErrDoesNotExist` when zero rows are affected. -/
def DeleteMulticastQueueItem (db : DBState) (gid fCnt : Nat) :
    Except StorageError DBState :=
  let rest := db.queue.filter (fun r => !(sameKey gid fCnt r))
  if rest.length == db.queue.length then
    .error .doesNotExist
  else
    .ok { db with queue := rest }

/-- `FlushMulticastQueueForMulticastGroup`:
`delete from multicast_queue where multicast_group_id = $1`; returns
`ErrDoesNotExist` when zero rows are affected. -/
def FlushMulticastQueueForMulticastGroup (db : DBState) (gid : Nat) :
    Except StorageError DBState :=
  let rest := db.queue.filter (fun r => !(r.multicastGroupID == gid))
  if rest.length == db.queue.length then
    .error .doesNotExist
  else
    .ok { db with queue := rest }

/-- `GetMulticastQueueItemsForMulticastGroup`: all rows of a group (the SQL
orders by `f_cnt`; for row counting the order is irrelevant and the filter is
kept in table order). -/
def GetMulticastQueueItemsForMulticastGroup (db : DBState) (gid : Nat) :
    List MulticastQueueItem :=
  db.queue.filter (fun r => r.multicastGroupID == gid)

/-- The `exists` subquery of `GetMulticastGroupsWithQueueItems`: some
`multicast_queue` row of the group satisfies
`group_type = C or (group_type = B and emit_at_time_since_gps_epoch <= deadline)`
(the SQL comparison against a NULL `emit_at_time_since_gps_epoch` is not
true). -/
def hasDispatchableItem (queue : List MulticastQueueItem) (deadline : Int)
    (g : MulticastGroup) : Bool :=
  queue.any (fun mq =>
    mq.multicastGroupID == g.id &&
    (g.groupType == .C ||
      (g.groupType == .B &&
        match mq.emitAtTimeSinceGPSEpoch with
        | some e => decide (e ≤ deadline)
        | none => false)))

/-- `GetMulticastGroupsWithQueueItems`: selects up to `count` groups having a
queue row that satisfies the class-C / class-B-ready condition, under
`for update of mg skip locked` — rows already locked by a concurrent
transaction (the `locked` set of group ids) are skipped, and the selected rows
are locked.  `deadline` is `gps.Time(now + 2 * SchedulerInterval)`. -/
def GetMulticastGroupsWithQueueItems (db : DBState) (locked : List Nat)
    (deadline : Int) (count : Nat) : List MulticastGroup :=
  (((db.groups.filter (fun g => !(locked.contains g.id))).filter
    (hasDispatchableItem db.queue deadline)).take count)

/-- Two transactions calling `GetMulticastGroupsWithQueueItems` concurrently:
`for update` locks the rows selected by the first transaction, so when the
second transaction scans, the first transaction's selection is part of the
locked set that `skip locked` skips. -/
def selectTwoTransactions (db : DBState) (locked : List Nat)
    (d1 d2 : Int) (c1 c2 : Nat) : List MulticastGroup × List MulticastGroup :=
  let r1 := GetMulticastGroupsWithQueueItems db locked d1 c1
  let r2 := GetMulticastGroupsWithQueueItems db (locked ++ r1.map (·.id)) d2 c2
  (r1, r2)

end Storage

namespace Multicast

/-- Queue item as used by the dispatcher in
`internal/downlink/multicast/multicast.go`: the dispatcher's queue schema
carries a row `id` (bigserial) and a `gateway_id` in addition to the group id,
frame counter, port, payload and optional GPS-epoch emission time. -/
structure QueueItem where
  id : Nat
  multicastGroupID : Nat
  gatewayID : Nat
  fCnt : Nat
  fPort : Nat
  frmPayload : List Nat := []
  emitAtTimeSinceGPSEpoch : Option Int := none
deriving DecidableEq, Repr

/-- LoRaWAN MHDR message types (`lorawan.MType`). -/
inductive MType where
  | joinRequest
  | joinAccept
  | unconfirmedDataUp
  | unconfirmedDataDown
  | confirmedDataUp
  | confirmedDataDown
deriving DecidableEq, Repr

/-- LoRaWAN major version (`lorawan.Major`). -/
inductive Major where
  | loRaWANR1
deriving DecidableEq, Repr

/-- LoRaWAN MAC version selector passed to `SetDownlinkDataMIC`. -/
inductive MACVersion where
  | lorawan1_0
  | lorawan1_1
deriving DecidableEq, Repr

/-- `lorawan.FHDR` — the fields the dispatcher sets. -/
structure FHDR where
  devAddr : Nat := 0
  fCnt : Nat := 0
deriving DecidableEq, Repr

/-- `lorawan.MACPayload` — the fields the dispatcher sets. -/
structure MACPayload where
  fhdr : FHDR := {}
  fPort : Option Nat := none
  frmPayload : List Nat := []
deriving DecidableEq, Repr

/-- `lorawan.PHYPayload` — MHDR fields, MAC payload and MIC. -/
structure PHYPayload where
  mtype : MType := .joinRequest
  major : Major := .loRaWANR1
  macPayload : MACPayload := {}
  mic : Nat := 0
deriving DecidableEq, Repr

/-- `gw.TXInfo` — the fields set by `setTXInfo`. -/
structure TXInfo where
  mac : Nat := 0
  immediately : Bool := false
  timeSinceGPSEpoch : Option Int := none
  frequency : Int := 0
  dataRate : Nat := 0
  power : Int := 0
  codeRate : String := ""
deriving DecidableEq, Repr

/-- `gw.TXPacket` handed to the gateway backend's `SendTXPacket`. -/
structure TXPacket where
  token : Nat
  txInfo : TXInfo
  phyPayload : PHYPayload
deriving DecidableEq, Repr

/-- The band interface consumed by the dispatcher
(`GetMaxPayloadSizeForDataRateIndex` — only its `.N` field is used —,
`GetDataRate`, `GetDownlinkTXPower`); an external collaborator, modelled as
opaque functions. -/
structure Band where
  getMaxPayloadSizeN : Int → Except String Nat
  getDataRate : Int → Except String Nat
  getDownlinkTXPower : Int → Int

/-- The configuration surface the dispatcher reads
(`config.C.NetworkServer.{Band, NetworkSettings.DownlinkTXPower}`). -/
structure Config where
  band : Band
  downlinkTXPower : Int

/-- Ambient effects of the dispatcher: configuration, the (opaque) MIC
computation of `SetDownlinkDataMIC`, the outcome of the `crypto/rand` token
read, and the gateway backend's `SendTXPacket`. -/
structure Env where
  config : Config
  micFn : MACVersion → Nat → Nat → PHYPayload → Nat
  randToken : Nat
  sendTXPacket : TXPacket → Except String Unit

/-- Mutable world the dispatcher acts on: the `multicast_queue` table and the
packets handed to the gateway backend. -/
structure MCState where
  queue : List QueueItem := []
  sent : List TXPacket := []
deriving DecidableEq, Repr

/-- `multicastContext` — the per-run context threaded through the tasks. -/
structure Ctx where
  token : Nat := 0
  multicastGroup : Storage.MulticastGroup
  queueItem : QueueItem := { id := 0, multicastGroupID := 0, gatewayID := 0, fCnt := 0, fPort := 0 }
  txInfo : TXInfo := {}
  phyPayload : PHYPayload := {}

/-- A task either errors (with `errAbort` or a wrapped error) or returns the
updated context and state. -/
inductive TaskError where
  | abort
  | failure (msg : String)

/-- The type of a task in `multicastTasks`. -/
abbrev Task := Env → Ctx → MCState → Except TaskError (Ctx × MCState)

/-- Select the head-of-queue item, `order by f_cnt limit 1`: an item of the
group with minimal frame counter. -/
def minByFCnt : List QueueItem → Option QueueItem
  | [] => none
  | r :: rs =>
    match minByFCnt rs with
    | none => some r
    | some b => if r.fCnt ≤ b.fCnt then some r else some b

/-- `storage.GetNextMulticastQueueItemForMulticastGroup` as invoked by the
dispatcher: the group's queue item with the smallest `f_cnt`, or a not-found
error on an empty queue. -/
def getNextForGroup (queue : List QueueItem) (gid : Nat) : Except String QueueItem :=
  match minByFCnt (queue.filter (fun r => r.multicastGroupID == gid)) with
  | none => .error "object does not exist"
  | some qi => .ok qi

/-- `setToken`: two random bytes, big-endian, as a 16-bit token. -/
def setToken : Task := fun env c st =>
  .ok ({ c with token := env.randToken % 65536 }, st)

/-- `getNextQueueItem`: load the head item into the context. -/
def getNextQueueItem : Task := fun _ c st =>
  match getNextForGroup st.queue c.multicastGroup.id with
  | .error e => .error (.failure ("get next multicast queue-item error: " ++ e))
  | .ok qi => .ok ({ c with queueItem := qi }, st)

/-- `removeQueueItem`: `storage.DeleteMulticastQueueItem(ctx.DB, ctx.QueueItem.ID)`
— delete the context's queue item by row id; not-found when zero rows match. -/
def removeQueueItem : Task := fun _ c st =>
  let rest := st.queue.filter (fun r => !(r.id == c.queueItem.id))
  if rest.length == st.queue.length then
    .error (.failure "delete multicast queue-item error: object does not exist")
  else
    .ok (c, { st with queue := rest })

/-- `validatePayloadSize`: look up the maximum payload size for the group's
data-rate index and return `errAbort` when the item's payload exceeds it. -/
def validatePayloadSize : Task := fun env c st =>
  match env.config.band.getMaxPayloadSizeN c.multicastGroup.dr with
  | .error e => .error (.failure ("get max payload-size for data-rate index error: " ++ e))
  | .ok n =>
    if c.queueItem.frmPayload.length > n then
      .error .abort
    else
      .ok (c, st)

/-- `setTXInfo`: gateway MAC from the row, `Immediately` iff no GPS-epoch emit
time, the emit time when present, frequency from the group, data-rate from the
band (may error), power from config unless `-1` (then the band default for the
frequency), code rate `"4/5"`. -/
def setTXInfo : Task := fun env c st =>
  let txInfo : TXInfo :=
    { mac := c.queueItem.gatewayID
      immediately := c.queueItem.emitAtTimeSinceGPSEpoch.isNone
      timeSinceGPSEpoch := c.queueItem.emitAtTimeSinceGPSEpoch
      frequency := c.multicastGroup.frequency }
  match env.config.band.getDataRate c.multicastGroup.dr with
  | .error e => .error (.failure ("get data-rate error: " ++ e))
  | .ok dr =>
    let txInfo := { txInfo with dataRate := dr }
    let txInfo := { txInfo with power :=
      if env.config.downlinkTXPower ≠ -1 then
        env.config.downlinkTXPower
      else
        env.config.band.getDownlinkTXPower txInfo.frequency }
    let txInfo := { txInfo with codeRate := "4/5" }
    .ok ({ c with txInfo := txInfo }, st)

/-- `setPHYPayload`: `UnconfirmedDataDown` / `LoRaWANR1` frame whose FHDR
carries the group's `MCAddr` and the item's `FCnt`, with the item's `FPort`
and `FRMPayload`, MIC computed by `SetDownlinkDataMIC(LoRaWAN1_1, 0,
MCNetSKey)`. -/
def setPHYPayload : Task := fun env c st =>
  let phy : PHYPayload :=
    { mtype := .unconfirmedDataDown
      major := .loRaWANR1
      macPayload :=
        { fhdr := { devAddr := c.multicastGroup.mcAddr, fCnt := c.queueItem.fCnt }
          fPort := some c.queueItem.fPort
          frmPayload := c.queueItem.frmPayload }
      mic := 0 }
  let phy := { phy with mic := env.micFn .lorawan1_1 0 c.multicastGroup.mcNetSKey phy }
  .ok ({ c with phyPayload := phy }, st)

/-- `sendDownlinkData`: hand `(token, txInfo, frame)` to the gateway backend;
on success the packet is recorded as sent. -/
def sendDownlinkData : Task := fun env c st =>
  let pkt : TXPacket := { token := c.token, txInfo := c.txInfo, phyPayload := c.phyPayload }
  match env.sendTXPacket pkt with
  | .error e => .error (.failure ("send downlink frame to gateway error: " ++ e))
  | .ok _ => .ok (c, { st with sent := st.sent ++ [pkt] })

/-- `logDownlinkFrameForGateway`: framelog hook; no effect on the modelled
state. -/
def logDownlinkFrameForGateway : Task := fun _ c st => .ok (c, st)

/-- The dispatcher's per-group task pipeline, in source order. -/
def multicastTasks : List Task :=
  [setToken, getNextQueueItem, removeQueueItem, validatePayloadSize,
   setTXInfo, setPHYPayload, sendDownlinkData, logDownlinkFrameForGateway]

/-- Run the tasks in order; a task error stops the pipeline.  The state
already produced by earlier tasks persists (each task's own database statement
is atomic: a failing task leaves the state unchanged). -/
def runTasks (env : Env) : List Task → Ctx → MCState → MCState × Except TaskError Unit
  | [], _, st => (st, .ok ())
  | t :: ts, c, st =>
    match t env c st with
    | .ok (c', st') => runTasks env ts c' st'
    | .error e => (st, .error e)

/-- `HandleScheduleNextQueueItem`: run the pipeline for the group;
`errAbort` is translated into a nil error. -/
def HandleScheduleNextQueueItem (env : Env) (mg : Storage.MulticastGroup)
    (st : MCState) : MCState × Except String Unit :=
  match runTasks env multicastTasks { multicastGroup := mg } st with
  | (st', .ok ()) => (st', .ok ())
  | (st', .error .abort) => (st', .ok ())
  | (st', .error (.failure m)) => (st', .error m)

end Multicast

namespace ClassB

/-- Modelled from the spec: beacon period of 128 s, expressed in
milliseconds. -/
def beaconPeriod : Nat := 128000

/-- Modelled from the spec: each beacon is followed by 4096 ping slots of
30 ms each. -/
def slotLen : Nat := 30

/-- Modelled from the spec: the ping-period base, 4096 slots;
`pingPeriod = 4096 / pingNb`. -/
def pingPeriodBase : Nat := 4096

/-- Modelled from the spec: the search for the smallest ping slot strictly
after `after` (milliseconds since GPS epoch).  For the beacon interval
containing `after`, the device-side hash `pingOffset (mcAddr, beaconTime)`
selects the starting offset; the slots of that beacon lie at
`beaconStart + slotLen * (offset + n * pingPeriod)` for `n < pingNb`.  When no
slot of the current beacon lies strictly after `after`, the first slot of the
next beacon is returned (every slot of the next beacon lies after `after`). -/
def nextPingSlotCore (pingOffset : Nat → Nat → Nat) (mcAddr after pingNb : Nat) : Nat :=
  match (List.range pingNb).find? (fun n =>
      decide (after < (after - after % beaconPeriod) + slotLen *
        (pingOffset mcAddr (after - after % beaconPeriod) +
          n * (pingPeriodBase / pingNb)))) with
  | some n =>
    (after - after % beaconPeriod) + slotLen *
      (pingOffset mcAddr (after - after % beaconPeriod) + n * (pingPeriodBase / pingNb))
  | none =>
    (after - after % beaconPeriod) + beaconPeriod + slotLen *
      (pingOffset mcAddr ((after - after % beaconPeriod) + beaconPeriod) +
        0 * (pingPeriodBase / pingNb))

/-- Modelled from the spec: `GetNextPingSlotAfter(after, mcAddr, pingNb)` from
`internal/downlink/data/classb` (implementation not among the provided
sources).  It fails only on impossible parameters — a `pingNb` that is not a
power of two dividing 4096; all divisors of 4096 are powers of two, so the
guard is divisibility.  The device-side hash is opaque and passed as the
`pingOffset` parameter. -/
def GetNextPingSlotAfter (pingOffset : Nat → Nat → Nat) (mcAddr after pingNb : Nat) :
    Except String Nat :=
  if pingNb ∣ pingPeriodBase then
    .ok (nextPingSlotCore pingOffset mcAddr after pingNb)
  else
    .error "invalid pingNb parameter"

/-- `t` is one of the ping slots of the beacon starting at `b`, for the
schedule determined by `pingOffset`, `mcAddr` and `pingNb`. -/
def IsPingSlotOf (pingOffset : Nat → Nat → Nat) (mcAddr b pingNb t : Nat) : Prop :=
  ∃ n < pingNb, t = b + slotLen * (pingOffset mcAddr b + n * (pingPeriodBase / pingNb))

/-- The constant-zero ping-offset hash (a valid hash: offset 0 lies in
`[0, pingPeriod)` for every beacon). -/
def zeroOffset : Nat → Nat → Nat := fun _ _ => 0

end ClassB

namespace Examples

/-- Example Class-C multicast group. -/
def exGroup : Storage.MulticastGroup :=
  { id := 1, groupType := .C, mcAddr := 5, mcNetSKey := 7, dr := 0,
    frequency := 868100000 }

/-- Example dispatcher queue item of `exGroup`. -/
def exItem : Multicast.QueueItem :=
  { id := 10, multicastGroupID := 1, gatewayID := 3, fCnt := 0, fPort := 2,
    frmPayload := [1, 2, 3] }

/-- Example band: payload limit 51, data-rate lookup succeeds, default
downlink power 14. -/
def exBand : Multicast.Band :=
  { getMaxPayloadSizeN := fun _ => .ok 51
    getDataRate := fun _ => .ok 0
    getDownlinkTXPower := fun _ => 14 }

/-- Example band whose payload limit (2 bytes) is below `exItem`'s payload
length. -/
def exBandSmall : Multicast.Band :=
  { getMaxPayloadSizeN := fun _ => .ok 2
    getDataRate := fun _ => .ok 0
    getDownlinkTXPower := fun _ => 14 }

/-- Example dispatcher environment whose gateway backend fails every send. -/
def exEnvSendFail : Multicast.Env :=
  { config := { band := exBand, downlinkTXPower := -1 }
    micFn := fun _ _ _ _ => 0
    randToken := 42
    sendTXPacket := fun _ => .error "backend error" }

/-- Example dispatcher environment with a small payload limit and a
succeeding backend. -/
def exEnvSmall : Multicast.Env :=
  { config := { band := exBandSmall, downlinkTXPower := -1 }
    micFn := fun _ _ _ _ => 0
    randToken := 42
    sendTXPacket := fun _ => .ok () }

/-- Dispatcher state holding exactly `exItem`. -/
def exStateOne : Multicast.MCState := { queue := [exItem], sent := [] }

/-- Dispatcher context for `exGroup` with `exItem` loaded. -/
def exCtx : Multicast.Ctx := { multicastGroup := exGroup, queueItem := exItem }

/-- Example storage group with stored frame counter 10. -/
def exStGroup : Storage.MulticastGroup := { id := 1, groupType := .C, fCnt := 10 }

/-- Storage state holding `exStGroup` and an empty queue. -/
def exDb0 : Storage.DBState := { groups := [exStGroup], queue := [] }

/-- Storage queue item with caller-supplied frame counter 0. -/
def exQi : Storage.MulticastQueueItem :=
  { multicastGroupID := 1, fCnt := 0, fPort := 2, frmPayload := [1] }

/-- Storage queue item with caller-supplied frame counter 5 (below the
group's stored frame counter 10). -/
def exQiF5 : Storage.MulticastQueueItem :=
  { multicastGroupID := 1, fCnt := 5, fPort := 2 }

/-- `exDb0` after enqueueing `exQi` at time 0. -/
def exDb1 : Storage.DBState :=
  { groups := [exStGroup], queue := [{ exQi with createdAt := 0 }] }

/-- Second example Class-C storage group. -/
def exStGroup2 : Storage.MulticastGroup := { id := 2, groupType := .C, fCnt := 0 }

/-- Storage state with two Class-C groups, each holding one queue item. -/
def exDbTwo : Storage.DBState :=
  { groups := [exStGroup, exStGroup2]
    queue := [{ multicastGroupID := 1, fCnt := 0, fPort := 2 },
              { multicastGroupID := 2, fCnt := 0, fPort := 2 }] }

end Examples

section StorageTheorems

open Storage

/-- Helper: a `contains` that evaluates to `false` means non-membership. -/
theorem contains_false_not_mem (l : List Nat) (x : Nat)
    (h : l.contains x = false) : x ∉ l := by
  intro hx
  have : l.contains x = true := List.elem_eq_true_of_mem hx
  rw [h] at this
  cases this

/-- C10: `DeleteMulticastQueueItem` and `FlushMulticastQueueForMulticastGroup`
return `ErrDoesNotExist` whenever they match zero rows; in particular flushing
a group whose queue is already empty is an error, not a no-op. -/
theorem c10_zero_rows_not_found (db : Storage.DBState) (gid fCnt : Nat) :
    ((∀ r ∈ db.queue, ¬(r.multicastGroupID = gid ∧ r.fCnt = fCnt)) →
      Storage.DeleteMulticastQueueItem db gid fCnt = .error .doesNotExist) ∧
    ((∀ r ∈ db.queue, r.multicastGroupID ≠ gid) →
      Storage.FlushMulticastQueueForMulticastGroup db gid = .error .doesNotExist) := by
  constructor
  · intro h
    unfold Storage.DeleteMulticastQueueItem
    have heq : db.queue.filter (fun r => !(Storage.sameKey gid fCnt r)) = db.queue := by
      apply List.filter_eq_self.mpr
      intro r hr
      have hnr := h r hr
      by_cases h1 : r.multicastGroupID = gid
      · by_cases h2 : r.fCnt = fCnt
        · exact absurd ⟨h1, h2⟩ hnr
        · simp [Storage.sameKey, h2]
      · simp [Storage.sameKey, h1]
    simp [heq]
  · intro h
    unfold Storage.FlushMulticastQueueForMulticastGroup
    have heq : db.queue.filter (fun r => !(r.multicastGroupID == gid)) = db.queue := by
      apply List.filter_eq_self.mpr
      intro r hr
      simp [h r hr]
    simp [heq]

/-- C10 witness: flushing and deleting on an empty queue produce the
not-found error. -/
theorem c10_witness :
    Storage.DeleteMulticastQueueItem Examples.exDb0 1 3 = .error .doesNotExist ∧
    Storage.FlushMulticastQueueForMulticastGroup Examples.exDb0 1 = .error .doesNotExist := by
  have h := c10_zero_rows_not_found Examples.exDb0 1 3
  exact ⟨h.1 (by intro r hr; simp [Examples.exDb0] at hr),
         h.2 (by intro r hr; simp [Examples.exDb0] at hr)⟩

/-- C5: every group returned by `GetMulticastGroupsWithQueueItems` has at
least one queue row and is either Class-C or has an item whose emission time
is at most the deadline `now + 2 * SchedulerInterval`; at most `count` groups
are returned. -/
theorem c5_selected_groups_dispatchable (db : Storage.DBState) (locked : List Nat)
    (deadline : Int) (count : Nat) :
    (∀ g ∈ Storage.GetMulticastGroupsWithQueueItems db locked deadline count,
      (∃ qi ∈ db.queue, qi.multicastGroupID = g.id) ∧
      (g.groupType = .C ∨
        ∃ qi ∈ db.queue, qi.multicastGroupID = g.id ∧
          ∃ e, qi.emitAtTimeSinceGPSEpoch = some e ∧ e ≤ deadline)) ∧
    (Storage.GetMulticastGroupsWithQueueItems db locked deadline count).length ≤ count := by
  constructor
  · intro g hg
    have hg' := List.take_subset _ _ hg
    have hdisp : Storage.hasDispatchableItem db.queue deadline g = true :=
      (List.mem_filter.mp hg').2
    unfold Storage.hasDispatchableItem at hdisp
    rw [List.any_eq_true] at hdisp
    obtain ⟨mq, hmq, hcond⟩ := hdisp
    rw [Bool.and_eq_true] at hcond
    obtain ⟨hid, hcase⟩ := hcond
    rw [beq_iff_eq] at hid
    refine ⟨⟨mq, hmq, hid⟩, ?_⟩
    rw [Bool.or_eq_true] at hcase
    rcases hcase with hC | hB
    · left
      exact beq_iff_eq.mp hC
    · right
      rw [Bool.and_eq_true] at hB
      obtain ⟨_, hmatch⟩ := hB
      cases hemit : mq.emitAtTimeSinceGPSEpoch with
      | none => rw [hemit] at hmatch; cases hmatch
      | some e =>
        rw [hemit] at hmatch
        exact ⟨mq, hmq, hid, e, hemit, of_decide_eq_true hmatch⟩
  · rw [Storage.GetMulticastGroupsWithQueueItems, List.length_take]
    exact Nat.min_le_left _ _

/-- C5 witness: a database with two Class-C groups and one queue item each;
with `count = 1` the first group is selected and satisfies the
dispatchability properties. -/
theorem c5_witness :
    Examples.exStGroup ∈ Storage.GetMulticastGroupsWithQueueItems Examples.exDbTwo [] 0 1 ∧
    (∃ qi ∈ Examples.exDbTwo.queue, qi.multicastGroupID = Examples.exStGroup.id) ∧
    (Storage.GetMulticastGroupsWithQueueItems Examples.exDbTwo [] 0 1).length ≤ 1 := by
  have hmem : Examples.exStGroup ∈ Storage.GetMulticastGroupsWithQueueItems Examples.exDbTwo [] 0 1 := by
    decide
  have h := c5_selected_groups_dispatchable Examples.exDbTwo [] 0 1
  exact ⟨hmem, (h.1 _ hmem).1, h.2⟩

/-- C6: two transactions calling `GetMulticastGroupsWithQueueItems`
concurrently return disjoint group sets: a group row locked by the first
transaction is skipped, not returned, by the second. -/
theorem c6_concurrent_selections_disjoint (db : Storage.DBState) (locked : List Nat)
    (d1 d2 : Int) (c1 c2 : Nat) (g g' : Storage.MulticastGroup)
    (h2 : g ∈ (Storage.selectTwoTransactions db locked d1 d2 c1 c2).2)
    (h1 : g' ∈ (Storage.selectTwoTransactions db locked d1 d2 c1 c2).1) :
    g.id ≠ g'.id := by
  unfold Storage.selectTwoTransactions at h1 h2
  simp only at h1 h2
  have hmem := List.take_subset _ _ h2
  have hunlocked := (List.mem_filter.mp (List.mem_filter.mp hmem).1).2
  rw [Bool.not_eq_eq_eq_not, Bool.not_true] at hunlocked
  have hnot := contains_false_not_mem _ _ hunlocked
  rw [List.mem_append] at hnot
  push_neg at hnot
  intro heq
  exact hnot.2 (heq ▸ List.mem_map_of_mem (·.id) h1)

/-- C6 witness: with two Class-C groups and `count = 1` for both calls, the
first transaction takes the first group and the second takes the other; their
identifiers differ. -/
theorem c6_witness :
    Examples.exStGroup2 ∈ (Storage.selectTwoTransactions Examples.exDbTwo [] 0 0 1 1).2 ∧
    Examples.exStGroup ∈ (Storage.selectTwoTransactions Examples.exDbTwo [] 0 0 1 1).1 ∧
    Examples.exStGroup2.id ≠ Examples.exStGroup.id := by
  have hm2 : Examples.exStGroup2 ∈ (Storage.selectTwoTransactions Examples.exDbTwo [] 0 0 1 1).2 := by
    decide
  have hm1 : Examples.exStGroup ∈ (Storage.selectTwoTransactions Examples.exDbTwo [] 0 0 1 1).1 := by
    decide
  exact ⟨hm2, hm1, c6_concurrent_selections_disjoint _ _ _ _ _ _ _ _ hm2 hm1⟩

end StorageTheorems

section EnqueueTheorems

/-- C2 counterexample: enqueueing to a group (regardless of how many gateways
cover its devices — take N = 2) creates exactly one queue row, not N; the
storage queue row carries no gateway identifier at all, so no `(FCnt,
GatewayID)` fan-out exists. -/
theorem c2_counterexample_single_row_not_fanout :
    (Storage.CreateMulticastQueueItem 0 Examples.exDb0 Examples.exQi).map
        (fun db' => (Storage.GetMulticastQueueItemsForMulticastGroup db' 1).length)
      = .ok 1 ∧ (1 : Nat) ≠ 2 := by
  constructor
  · rfl
  · decide

/-- C2 (amended): a successful `CreateMulticastQueueItem` appends exactly one
queue row — the caller's item stamped with the creation time — and a second
enqueue for the same `(multicast_group_id, f_cnt)` fails with the
already-exists error: within a group, `FCnt` alone is unique (the table's
primary key), so N rows sharing one `FCnt` cannot exist. -/
theorem c2_amended_enqueue_creates_exactly_one_row (now : Int)
    (db : Storage.DBState) (qi : Storage.MulticastQueueItem) (db' : Storage.DBState)
    (h : Storage.CreateMulticastQueueItem now db qi = .ok db') :
    db'.queue = db.queue ++ [{ qi with createdAt := now }] ∧
    (∀ now2 qi2, qi2.multicastGroupID = qi.multicastGroupID → qi2.fCnt = qi.fCnt →
      qi2.fPort ≠ 0 →
      Storage.CreateMulticastQueueItem now2 db' qi2 = .error .alreadyExists) := by
  unfold Storage.CreateMulticastQueueItem Storage.MulticastQueueItem.validate at h
  by_cases hp : qi.fPort = 0
  · simp [hp] at h
  · simp only [hp, if_false] at h
    by_cases hdup : db.queue.any (Storage.sameKey qi.multicastGroupID qi.fCnt)
    · simp [hdup] at h
    · simp only [hdup, Bool.false_eq_true, if_false, Except.ok.injEq] at h
      constructor
      · rw [← h]
      · intro now2 qi2 hg hf hp2
        unfold Storage.CreateMulticastQueueItem Storage.MulticastQueueItem.validate
        simp only [hp2, if_false]
        have hany : db'.queue.any (Storage.sameKey qi2.multicastGroupID qi2.fCnt) = true := by
          rw [← h]
          simp [List.any_append, Storage.sameKey, hg, hf]
        simp [hany]

/-- C2 witness: the amended theorem applied to the concrete enqueue of
`exQi` into `exDb0`. -/
theorem c2_amended_witness :
    Storage.CreateMulticastQueueItem 0 Examples.exDb0 Examples.exQi = .ok Examples.exDb1 ∧
    Examples.exDb1.queue = Examples.exDb0.queue ++ [{ Examples.exQi with createdAt := 0 }] :=
  ⟨rfl, (c2_amended_enqueue_creates_exactly_one_row 0 Examples.exDb0 Examples.exQi
    Examples.exDb1 rfl).1⟩

/-- C3 counterexample: enqueueing an item with `FCnt = 5` into a group whose
stored `FCnt` is 10 succeeds, stores the item with `FCnt = 5` (not the
group's 10) and leaves the group's `FCnt` at 10 (not incremented to 11). -/
theorem c3_counterexample_fcnt_not_assigned_from_group :
    (Storage.CreateMulticastQueueItem 0 Examples.exDb0 Examples.exQiF5).map
        (fun db' => (db'.groups.map (·.fCnt), db'.queue.map (·.fCnt)))
      = .ok ([10], [5]) ∧ (5 : Nat) ≠ 10 ∧ (10 : Nat) ≠ 11 := by
  refine ⟨rfl, by decide, by decide⟩

/-- C3 (amended): `CreateMulticastQueueItem` stores the caller-supplied
`FCnt` verbatim and leaves the `multicast_group` table — in particular every
group's stored `FCnt` — completely unchanged; no frame counter is assigned or
incremented at enqueue time. -/
theorem c3_amended_enqueue_leaves_group_fcnt_unchanged (now : Int)
    (db : Storage.DBState) (qi : Storage.MulticastQueueItem) (db' : Storage.DBState)
    (h : Storage.CreateMulticastQueueItem now db qi = .ok db') :
    db'.groups = db.groups ∧
    db'.queue.map (·.fCnt) = db.queue.map (·.fCnt) ++ [qi.fCnt] := by
  unfold Storage.CreateMulticastQueueItem Storage.MulticastQueueItem.validate at h
  by_cases hp : qi.fPort = 0
  · simp [hp] at h
  · simp only [hp, if_false] at h
    by_cases hdup : db.queue.any (Storage.sameKey qi.multicastGroupID qi.fCnt)
    · simp [hdup] at h
    · simp only [hdup, Bool.false_eq_true, if_false, Except.ok.injEq] at h
      rw [← h]
      constructor
      · rfl
      · simp

/-- C3 witness: the amended theorem applied to the concrete enqueue of
`exQiF5` (frame counter 5) into `exDb0` (group frame counter 10). -/
theorem c3_amended_witness :
    ∃ db', Storage.CreateMulticastQueueItem 0 Examples.exDb0 Examples.exQiF5 = .ok db' ∧
      db'.groups = Examples.exDb0.groups :=
  ⟨{ groups := [Examples.exStGroup], queue := [{ Examples.exQiF5 with createdAt := 0 }] },
   rfl,
   (c3_amended_enqueue_leaves_group_fcnt_unchanged 0 Examples.exDb0 Examples.exQiF5
     _ rfl).1⟩

end EnqueueTheorems

section DispatcherTheorems

/-- Helper: an item selected by `minByFCnt` is a member of the list. -/
theorem minByFCnt_mem : ∀ (l : List Multicast.QueueItem) (r : Multicast.QueueItem),
    Multicast.minByFCnt l = some r → r ∈ l := by
  intro l
  induction l with
  | nil => intro r h; cases h
  | cons a tl ih =>
    intro r h
    unfold Multicast.minByFCnt at h
    cases htl : Multicast.minByFCnt tl with
    | none =>
      rw [htl] at h
      injection h with h
      exact h ▸ List.mem_cons_self _ _
    | some b =>
      rw [htl] at h
      simp only [] at h
      by_cases hle : a.fCnt ≤ b.fCnt
      · rw [if_pos hle] at h
        injection h with h
        exact h ▸ List.mem_cons_self _ _
      · rw [if_neg hle] at h
        injection h with h
        exact h ▸ List.mem_cons_of_mem _ (ih b htl)

/-- Helper: the head-of-queue item returned by `getNextForGroup` is a row of
the queue. -/
theorem getNextForGroup_mem (q : List Multicast.QueueItem) (gid : Nat)
    (qi : Multicast.QueueItem) (h : Multicast.getNextForGroup q gid = .ok qi) :
    qi ∈ q := by
  unfold Multicast.getNextForGroup at h
  cases hm : Multicast.minByFCnt (q.filter (fun r => r.multicastGroupID == gid)) with
  | none => rw [hm] at h; cases h
  | some r =>
    rw [hm] at h
    injection h with h
    exact h ▸ List.mem_of_mem_filter (minByFCnt_mem _ _ hm)

/-- C8: when the head item's payload exceeds the maximum payload size for the
group's data-rate index, the per-group step deletes that queue row, hands
nothing to the gateway backend, and `HandleScheduleNextQueueItem` returns
without error. -/
theorem c8_oversized_payload_dropped_without_send (env : Multicast.Env)
    (mg : Storage.MulticastGroup) (st : Multicast.MCState)
    (qi : Multicast.QueueItem) (n : Nat)
    (hq : Multicast.getNextForGroup st.queue mg.id = .ok qi)
    (hmax : env.config.band.getMaxPayloadSizeN mg.dr = .ok n)
    (hover : n < qi.frmPayload.length) :
    Multicast.HandleScheduleNextQueueItem env mg st =
      ({ queue := st.queue.filter (fun r => !(r.id == qi.id)), sent := st.sent },
       .ok ()) := by
  have hmem : qi ∈ st.queue := getNextForGroup_mem _ _ _ hq
  have hlt : (st.queue.filter (fun r => !(r.id == qi.id))).length < st.queue.length := by
    rw [List.length_filter_lt_length_iff_exists]
    exact ⟨qi, hmem, by simp⟩
  have hne : ((st.queue.filter (fun r => !(r.id == qi.id))).length == st.queue.length)
      = false := by
    rw [beq_eq_false_iff_ne]
    exact Nat.ne_of_lt hlt
  simp only [Multicast.HandleScheduleNextQueueItem, Multicast.multicastTasks,
    Multicast.runTasks, Multicast.setToken, Multicast.getNextQueueItem, hq,
    Multicast.removeQueueItem, hne, Multicast.validatePayloadSize, hmax,
    Bool.false_eq_true, if_false, if_pos hover]

/-- C8 witness: with a band limit of 2 bytes and a 3-byte payload, the item
is deleted, nothing is sent, and the call returns without error. -/
theorem c8_witness :
    Multicast.HandleScheduleNextQueueItem Examples.exEnvSmall Examples.exGroup
        Examples.exStateOne =
      ({ queue := Examples.exStateOne.queue.filter
            (fun r => !(r.id == Examples.exItem.id)),
         sent := Examples.exStateOne.sent }, .ok ()) :=
  c8_oversized_payload_dropped_without_send Examples.exEnvSmall Examples.exGroup
    Examples.exStateOne Examples.exItem 2 rfl rfl (by decide)

/-- C1 (code bug): the dispatcher's task order places `removeQueueItem`
before `sendDownlinkData`, so with a gateway backend whose `SendTXPacket`
fails, the head queue item is already deleted when the send fails: the run
ends in an error, nothing was handed to the backend, and the queue no longer
holds the row — contradicting delete-only-after-successful-send. -/
theorem c1_failed_send_still_removes_item :
    (Multicast.HandleScheduleNextQueueItem Examples.exEnvSendFail Examples.exGroup
        Examples.exStateOne).1.queue = [] ∧
    (Multicast.HandleScheduleNextQueueItem Examples.exEnvSendFail Examples.exGroup
        Examples.exStateOne).1.sent = [] ∧
    (Multicast.HandleScheduleNextQueueItem Examples.exEnvSendFail Examples.exGroup
        Examples.exStateOne).2 =
      .error "send downlink frame to gateway error: backend error" := by
  refine ⟨rfl, rfl, rfl⟩

/-- C7: the radio frame built by `setPHYPayload` is an
`UnconfirmedDataDown` / LoRaWAN-R1 frame whose FHDR carries the group's
multicast address and the item's frame counter, with the item's port and
payload, and whose MIC is the LoRaWAN 1.1 downlink MIC with `confFCnt = 0`
under the group's multicast network-session key. -/
theorem c7_phypayload_structure (env : Multicast.Env) (c : Multicast.Ctx)
    (st : Multicast.MCState) :
    ∃ c', Multicast.setPHYPayload env c st = .ok (c', st) ∧
      c'.phyPayload.mtype = .unconfirmedDataDown ∧
      c'.phyPayload.major = .loRaWANR1 ∧
      c'.phyPayload.macPayload.fhdr.devAddr = c.multicastGroup.mcAddr ∧
      c'.phyPayload.macPayload.fhdr.fCnt = c.queueItem.fCnt ∧
      c'.phyPayload.macPayload.fPort = some c.queueItem.fPort ∧
      c'.phyPayload.macPayload.frmPayload = c.queueItem.frmPayload ∧
      c'.phyPayload.mic = env.micFn .lorawan1_1 0 c.multicastGroup.mcNetSKey
        { c'.phyPayload with mic := 0 } := by
  exact ⟨_, rfl, rfl, rfl, rfl, rfl, rfl, rfl, rfl⟩

/-- C9: the `TXInfo` built by `setTXInfo` is immediate exactly when the item
has no GPS-epoch emission time, carries that time verbatim when present, uses
the group's frequency, code rate `"4/5"`, the band data-rate, the row's
gateway, and the configured power unless it is `-1`, in which case the band
default for the frequency. -/
theorem c9_txinfo_structure (env : Multicast.Env) (c : Multicast.Ctx)
    (st : Multicast.MCState) (dr : Nat)
    (hdr : env.config.band.getDataRate c.multicastGroup.dr = .ok dr) :
    ∃ c', Multicast.setTXInfo env c st = .ok (c', st) ∧
      (c'.txInfo.immediately = true ↔ c.queueItem.emitAtTimeSinceGPSEpoch = none) ∧
      c'.txInfo.timeSinceGPSEpoch = c.queueItem.emitAtTimeSinceGPSEpoch ∧
      c'.txInfo.frequency = c.multicastGroup.frequency ∧
      c'.txInfo.codeRate = "4/5" ∧
      c'.txInfo.dataRate = dr ∧
      c'.txInfo.mac = c.queueItem.gatewayID ∧
      c'.txInfo.power = (if env.config.downlinkTXPower ≠ -1 then
          env.config.downlinkTXPower
        else env.config.band.getDownlinkTXPower c.multicastGroup.frequency) := by
  unfold Multicast.setTXInfo
  rw [hdr]
  exact ⟨_, rfl, Option.isNone_iff_eq_none, rfl, rfl, rfl, rfl, rfl, rfl⟩

/-- C9 witness: the theorem applied to the concrete context `exCtx` under
`exEnvSendFail` (whose data-rate lookup returns 0). -/
theorem c9_witness :
    ∃ c', Multicast.setTXInfo Examples.exEnvSendFail Examples.exCtx {} = .ok (c', {}) ∧
      c'.txInfo.codeRate = "4/5" ∧ c'.txInfo.frequency = 868100000 := by
  obtain ⟨c', hok, _, _, hfreq, hcode, _⟩ :=
    c9_txinfo_structure Examples.exEnvSendFail Examples.exCtx {} 0 rfl
  exact ⟨c', hok, hcode, hfreq⟩

end DispatcherTheorems

section ClassBTheorems

/-- Helper: the ping-slot search always returns a time strictly after its
`after` argument. -/
theorem nextPingSlotCore_gt (p : Nat → Nat → Nat) (mc a nb : Nat) :
    a < ClassB.nextPingSlotCore p mc a nb := by
  unfold ClassB.nextPingSlotCore
  split
  · next n hf =>
    have hp := List.find?_some hf
    exact of_decide_eq_true hp
  · next hf =>
    have h1 : a % ClassB.beaconPeriod < ClassB.beaconPeriod :=
      Nat.mod_lt _ (by decide)
    have h2 : a % ClassB.beaconPeriod ≤ a := Nat.mod_le _ _
    simp only [ClassB.beaconPeriod, ClassB.slotLen] at h1 h2 ⊢
    simp only [Nat.zero_mul, Nat.add_zero]
    omega

/-- Helper: the ping-slot search returns a ping slot of a beacon-aligned
interval. -/
theorem nextPingSlotCore_isSlot (p : Nat → Nat → Nat) (mc a nb : Nat)
    (hpos : 0 < nb) :
    ∃ b, b % ClassB.beaconPeriod = 0 ∧
      ClassB.IsPingSlotOf p mc b nb (ClassB.nextPingSlotCore p mc a nb) := by
  unfold ClassB.nextPingSlotCore
  split
  · next n hf =>
    refine ⟨a - a % ClassB.beaconPeriod, ?_, n, ?_, rfl⟩
    · simp only [ClassB.beaconPeriod]
      omega
    · exact List.mem_range.mp (List.mem_of_find?_eq_some hf)
  · next hf =>
    refine ⟨a - a % ClassB.beaconPeriod + ClassB.beaconPeriod, ?_, 0, hpos, rfl⟩
    simp only [ClassB.beaconPeriod]
    omega

/-- Helper: two ping slots of the same beacon differ by a multiple of the
ping period (`pingPeriod` slots of 30 ms). -/
theorem same_beacon_slots_diff_multiple (p : Nat → Nat → Nat) (mc b nb t1 t2 : Nat)
    (h1 : ClassB.IsPingSlotOf p mc b nb t1) (h2 : ClassB.IsPingSlotOf p mc b nb t2)
    (hle : t1 ≤ t2) :
    (ClassB.slotLen * (ClassB.pingPeriodBase / nb)) ∣ (t2 - t1) := by
  obtain ⟨n1, hn1, rfl⟩ := h1
  obtain ⟨n2, hn2, rfl⟩ := h2
  rcases Nat.le_total n1 n2 with h12 | h21
  · obtain ⟨k, rfl⟩ := Nat.exists_eq_add_of_le h12
    refine ⟨k, ?_⟩
    have hsplit : b + ClassB.slotLen *
          (p mc b + (n1 + k) * (ClassB.pingPeriodBase / nb))
        = (b + ClassB.slotLen * (p mc b + n1 * (ClassB.pingPeriodBase / nb)))
          + ClassB.slotLen * (ClassB.pingPeriodBase / nb) * k := by ring
    rw [hsplit, Nat.add_sub_cancel_left]
  · have hle2 : b + ClassB.slotLen * (p mc b + n2 * (ClassB.pingPeriodBase / nb))
        ≤ b + ClassB.slotLen * (p mc b + n1 * (ClassB.pingPeriodBase / nb)) := by
      have hmul : n2 * (ClassB.pingPeriodBase / nb) ≤ n1 * (ClassB.pingPeriodBase / nb) :=
        Nat.mul_le_mul_right _ h21
      exact add_le_add_left (mul_le_mul_left' (add_le_add_left hmul _) _) _
    rw [Nat.sub_eq_zero_of_le hle2]
    exact Dvd.intro 0 rfl

/-- C4 counterexample: with the constant-zero ping-offset hash,
`pingNb = 32` (ping period 128 slots = 3840 ms) and anchor 118000 ms, the
chained emissions are 119040 ms (last slot of the first beacon) and 128000 ms
(first slot of the next beacon); their difference, 8960 ms, is not a multiple
of the ping period. -/
theorem c4_counterexample_beacon_rollover_delta_not_multiple :
    ClassB.GetNextPingSlotAfter ClassB.zeroOffset 5 118000 32 = .ok 119040 ∧
    ClassB.GetNextPingSlotAfter ClassB.zeroOffset 5 119040 32 = .ok 128000 ∧
    ¬ ((ClassB.slotLen * (ClassB.pingPeriodBase / 32)) ∣ (128000 - 119040)) := by
  refine ⟨rfl, rfl, by decide⟩

/-- C4 (amended, spec-modelled): for chained Class-B emissions
`e1 = GetNextPingSlotAfter(a)`, `e2 = GetNextPingSlotAfter(e1)` the emission
times are strictly increasing and each is a ping slot of a beacon-aligned
interval; two ping slots of the *same* beacon differ by a multiple of the
ping period, but across a beacon boundary the difference need not be such a
multiple. -/
theorem c4_amended_chained_ping_slots (pingOffset : Nat → Nat → Nat)
    (mcAddr pingNb : Nat) (hdvd : pingNb ∣ ClassB.pingPeriodBase)
    (a e1 e2 : Nat)
    (h1 : ClassB.GetNextPingSlotAfter pingOffset mcAddr a pingNb = .ok e1)
    (h2 : ClassB.GetNextPingSlotAfter pingOffset mcAddr e1 pingNb = .ok e2) :
    (a < e1 ∧ e1 < e2) ∧
    (∃ b, b % ClassB.beaconPeriod = 0 ∧
      ClassB.IsPingSlotOf pingOffset mcAddr b pingNb e1) ∧
    (∀ b t1 t2, ClassB.IsPingSlotOf pingOffset mcAddr b pingNb t1 →
      ClassB.IsPingSlotOf pingOffset mcAddr b pingNb t2 → t1 ≤ t2 →
      (ClassB.slotLen * (ClassB.pingPeriodBase / pingNb)) ∣ (t2 - t1)) := by
  unfold ClassB.GetNextPingSlotAfter at h1 h2
  rw [if_pos hdvd] at h1 h2
  injection h1 with h1
  injection h2 with h2
  have hpos : 0 < pingNb := Nat.pos_of_dvd_of_pos hdvd (by decide)
  refine ⟨⟨h1 ▸ nextPingSlotCore_gt pingOffset mcAddr a pingNb,
      h2 ▸ nextPingSlotCore_gt pingOffset mcAddr e1 pingNb⟩,
    h1 ▸ nextPingSlotCore_isSlot pingOffset mcAddr a pingNb hpos,
    fun b t1 t2 ht1 ht2 hle =>
      same_beacon_slots_diff_multiple pingOffset mcAddr b pingNb t1 t2 ht1 ht2 hle⟩

/-- C4 witness: the amended theorem applied with the constant-zero hash,
`pingNb = 32` and anchor 0: the chain is 0 < 3840 < 7680, and slots 0 and
3840 of the first beacon differ by one ping period. -/
theorem c4_amended_witness :
    ((0 : Nat) < 3840 ∧ (3840 : Nat) < 7680) ∧
    (ClassB.slotLen * (ClassB.pingPeriodBase / 32)) ∣ (3840 - 0) := by
  have h := c4_amended_chained_ping_slots ClassB.zeroOffset 5 32 (by decide)
    0 3840 7680 rfl rfl
  exact ⟨h.1, h.2.2 0 0 3840 ⟨0, by decide, by decide⟩ ⟨1, by decide, by decide⟩
    (by decide)⟩

end ClassBTheorems
